import Mathlib

/-!
Shallow embedding of `src/simulator.py` (game tournament harness) and
verification of the specification's claims about it.

Modelling conventions:
* Python floats for scores and per-turn times are modelled as `ℚ`
  (the values involved — win credits incremented by `1` or `0.5`,
  comparisons, maxima, 5-decimal rounding — are exact).
* The external game engine (`World`, out of scope per the spec) is an
  abstract collaborator: a constructor `world : String → String →
  Option String → EngineSpec` building an engine from the two seated
  agent names and a board path; the engine exposes an infinite stream
  of `step()` results and two per-seat timing sequences.
* `np.random.randint` is modelled as an injected random source
  `randint : Nat → Nat → Option Nat` (iteration index, exclusive bound);
  `RandintSpec` captures numpy's contract: a bound of `0` raises
  (here: `none`), a positive bound yields some index below it.
* The filesystem (`os.path.isdir` + `os.listdir`) is an injected map
  `fs : String → Option (List String)`: `some entries` when the path is
  a directory, `none` otherwise.
* Python exceptions are modelled with `Option`/`Except`; the autoplay
  loop returns `Except Stats Stats`, where `.error s` is an exception
  escaping the loop while the local aggregates held `s`.
-/

/-- Result of one match as returned by `Simulator.run`:
`(p0_score, p1_score, p0_time, p1_time)` (simulator.py line 98). -/
structure MatchResult where
  p0_score : ℚ
  p1_score : ℚ
  p0_time : List ℚ
  p1_time : List ℚ
  deriving DecidableEq, Repr, Inhabited

/-- The external engine after construction: the stream of `step()` call
results `(is_end, p0_score, p1_score)` (the `k`-th call returns
`step k`), and the two per-seat timing sequences `world.p0_time`,
`world.p1_time` read after termination. -/
structure EngineSpec where
  step : Nat → Bool × ℚ × ℚ
  p0_time : List ℚ
  p1_time : List ℚ

/-- Constructor of the external engine `World(player_1, player_2,
board_fpath, ...)`: seated agent names and board path (the display
options do not influence the quantities the claims speak about). -/
def WorldCtor : Type :=
  String → String → Option String → EngineSpec

/-- The command-line configuration (`argparse` namespace, simulator.py
lines 14-32), the fields of `self.args` the simulator reads or writes. -/
structure Args where
  player_1 : String
  player_2 : String
  board_path : Option String
  board_roster_dir : Option String
  display : Bool
  display_delay : ℚ
  display_save : Bool
  display_save_path : String
  autoplay : Bool
  autoplay_runs : Nat
  deriving DecidableEq, Repr

/-- Python `str.endswith(suffix)` (simulator.py line 54). -/
def endswith (s suffix : String) : Bool :=
  suffix.data.isSuffixOf s.data

/-- Python `str.startswith` helper used by `os.path.join` semantics. -/
def startswith (s pre : String) : Bool :=
  pre.data.isPrefixOf s.data

/-- `os.path.join(d, f)` (simulator.py line 52): an absolute second
component wins; otherwise a single separator is inserted unless the
directory already ends with one. -/
def joinPath (d f : String) : String :=
  if startswith f "/" then f
  else if d = "" then f
  else if endswith d "/" then d ++ f
  else d ++ "/" ++ f

/-- Roster discovery, `Simulator.__init__` lines 44-59: if a (truthy)
`board_roster_dir` is configured and is a directory, keep every entry
ending in `.csv` or `.board`, joined to the directory; otherwise the
roster is the empty list, no error raised.  `fs d = some entries`
models `os.path.isdir(d)` true with `os.listdir(d) = entries`. -/
def discover (fs : String → Option (List String)) (roster_dir : Option String) :
    List String :=
  match roster_dir with
  | none => []
  | some d =>
    if d = "" then []
    else
      match fs d with
      | none => []
      | some entries =>
        (entries.filter fun fname =>
          endswith fname ".csv" || endswith fname ".board").map
          fun fname => joinPath d fname

/-- Seat assignment in `Simulator.reset` lines 74-77: on `swap_players`
the configured `player_2` takes seat 0 and `player_1` takes seat 1. -/
def seatAssignment (args : Args) (swap_players : Bool) : String × String :=
  if swap_players then (args.player_2, args.player_1)
  else (args.player_1, args.player_2)

/-- Board resolution in `Simulator.reset` lines 72-73: a `None`
`board_fpath` falls back to the configured `board_path`. -/
def resolveBoard (args : Args) (board_fpath : Option String) : Option String :=
  match board_fpath with
  | none => args.board_path
  | some b => some b

/-- `Simulator.reset` lines 61-88: construct the engine from the
(possibly swapped) seat assignment and the resolved board path. -/
def reset (world : WorldCtor) (args : Args) (swap_players : Bool)
    (board_fpath : Option String) : EngineSpec :=
  world (seatAssignment args swap_players).1 (seatAssignment args swap_players).2
    (resolveBoard args board_fpath)

/-- The step loop of `Simulator.run` lines 92-94: call `step()` starting
at call index `k` until the first terminal report, with explicit fuel
(the Python loop is unbounded; `none` models non-termination within the
given fuel).  Returns the terminal `(p0_score, p1_score)`. -/
def stepLoop (step : Nat → Bool × ℚ × ℚ) : Nat → Nat → Option (ℚ × ℚ)
  | 0, _ => none
  | fuel + 1, k =>
    let r := step k
    if r.1 then some (r.2.1, r.2.2) else stepLoop step fuel (k + 1)

/-- `Simulator.run` lines 90-98: reset, drive the engine to its first
terminal step, and return the terminal scores with the engine's two
per-seat timing sequences. -/
def run (world : WorldCtor) (args : Args) (swap_players : Bool)
    (board_fpath : Option String) (fuel : Nat) : Option MatchResult :=
  let w := reset world args swap_players board_fpath
  (stepLoop w.step fuel 0).map fun p =>
    { p0_score := p.1, p1_score := p.2, p0_time := w.p0_time, p1_time := w.p1_time }

/-- The aggregates of the autoplay loop (simulator.py lines 104-107). -/
structure Stats where
  p1_win_count : ℚ
  p2_win_count : ℚ
  p1_times : List ℚ
  p2_times : List ℚ
  deriving DecidableEq, Repr

/-- Initial aggregates (simulator.py lines 104-107). -/
def initStats : Stats :=
  { p1_win_count := 0, p2_win_count := 0, p1_times := [], p2_times := [] }

/-- Lines 118-124: when `swap_players` was true the returned seat
scores and timing sequences are exchanged before aggregation. -/
def canonicalize (r : MatchResult) (swap_players : Bool) : MatchResult :=
  if swap_players then
    { p0_score := r.p1_score, p1_score := r.p0_score,
      p0_time := r.p1_time, p1_time := r.p0_time }
  else r

/-- Lines 125-131: win credit update — `1` to the higher score's side,
or `0.5` to each on equality. -/
def updateWins (s : Stats) (r : MatchResult) : Stats :=
  if r.p0_score > r.p1_score then { s with p1_win_count := s.p1_win_count + 1 }
  else if r.p0_score < r.p1_score then { s with p2_win_count := s.p2_win_count + 1 }
  else
    { s with p1_win_count := s.p1_win_count + 1/2,
             p2_win_count := s.p2_win_count + 1/2 }

/-- Lines 132-133: extend the two timing aggregates. -/
def updateTimes (s : Stats) (r : MatchResult) : Stats :=
  { s with p1_times := s.p1_times ++ r.p0_time,
           p2_times := s.p2_times ++ r.p1_time }

/-- One aggregation step (lines 125-133). -/
def updateStats (s : Stats) (r : MatchResult) : Stats :=
  updateTimes (updateWins s r) r

/-- Contract of `np.random.randint(n)` for the injected random source:
a zero bound raises `ValueError` (modelled `none`); a positive bound
yields some index strictly below it. -/
def RandintSpec (randint : Nat → Nat → Option Nat) : Prop :=
  ∀ i, randint i 0 = none ∧ ∀ n, 0 < n → ∃ k, k < n ∧ randint i n = some k

/-- Line 114: `self.board_options[np.random.randint(len(self.board_options))]`.
Fails (`none`) when the random draw fails or is out of range. -/
def selectBoard (randint : Nat → Nat → Option Nat) (boards : List String)
    (i : Nat) : Option String :=
  match randint i boards.length with
  | none => none
  | some k => boards.get? k

/-- One iteration of the autoplay loop, lines 113-133: decide the swap
by parity, draw a board, run the match, canonicalize on swap, and
aggregate.  `.error s` models an exception escaping the loop with the
aggregates at `s`. -/
def autoplayStep (world : WorldCtor) (randint : Nat → Nat → Option Nat)
    (boards : List String) (args : Args) (fuel : Nat) (i : Nat) (s : Stats) :
    Except Stats Stats :=
  let swap_players := i % 2 == 0
  match selectBoard randint boards i with
  | none => .error s
  | some board_fpath =>
    match run world args swap_players (some board_fpath) fuel with
    | none => .error s
    | some r => .ok (updateStats s (canonicalize r swap_players))

/-- The autoplay loop over a list of iteration indexes (line 112). -/
def autoplayLoop (world : WorldCtor) (randint : Nat → Nat → Option Nat)
    (boards : List String) (args : Args) (fuel : Nat) :
    List Nat → Stats → Except Stats Stats
  | [], s => .ok s
  | i :: rest, s =>
    match autoplayStep world randint boards args fuel i s with
    | .error e => .error e
    | .ok s' => autoplayLoop world randint boards args fuel rest s'

/-- The aggregation phase of `Simulator.autoplay` lines 104-133:
`for i in range(self.args.autoplay_runs)` from zeroed aggregates. -/
def autoplayModel (world : WorldCtor) (randint : Nat → Nat → Option Nat)
    (boards : List String) (args : Args) (fuel : Nat) : Except Stats Stats :=
  autoplayLoop world randint boards args fuel
    (List.range args.autoplay_runs) initStats

/-- `np.max` over a list: `none` on the empty list (numpy raises
`ValueError` there), otherwise the maximum element. -/
def listMax : List ℚ → Option ℚ
  | [] => none
  | x :: xs => some (xs.foldl max x)

/-- Round-half-to-even on `ℚ`, the rounding mode of `np.round`. -/
def roundHalfEven (q : ℚ) : ℤ :=
  let f := ⌊q⌋
  let frac := q - f
  if frac < 1/2 then f
  else if 1/2 < frac then f + 1
  else if f % 2 = 0 then f else f + 1

/-- `np.round(q, 5)` (simulator.py lines 136, 139). -/
def round5 (q : ℚ) : ℚ :=
  (roundHalfEven (q * 100000) : ℚ) / 100000

/-- One of the two summary lines (lines 135-139): agent name, win
percentage, reported maximum turn time. -/
structure SummaryLine where
  agent : String
  win_percentage : ℚ
  max_turn_time : ℚ
  deriving DecidableEq, Repr

/-- The summary emission of `Simulator.autoplay` lines 135-139: exactly
two lines, one per logical agent; win percentage is the credit divided
by `autoplay_runs` (a zero run count raises `ZeroDivisionError`,
modelled `none`); the reported maximum is `np.round(np.max(times), 5)`
(`none` on an empty timing aggregate, where `np.max` raises). -/
def summaryModel (args : Args) (s : Stats) : Option (SummaryLine × SummaryLine) :=
  if args.autoplay_runs = 0 then none
  else
    match listMax s.p1_times, listMax s.p2_times with
    | some m1, some m2 =>
      some
        ({ agent := args.player_1,
           win_percentage := s.p1_win_count / (args.autoplay_runs : ℚ),
           max_turn_time := round5 m1 },
         { agent := args.player_2,
           win_percentage := s.p2_win_count / (args.autoplay_runs : ℚ),
           max_turn_time := round5 m2 })
    | _, _ => none

/-- Process-wide logging state: the `logging.Manager.disable` threshold
(records of level `≤ disable` are suppressed; the process default is
`0`). -/
structure LogState where
  disable : Nat
  deriving DecidableEq, Repr

/-- `logging.CRITICAL`, the level at which `all_logging_disabled`
suppresses. -/
def CRITICAL : Nat := 50

/-- `logging.INFO`, the level of the per-match line (line 95) and the
two summary lines (lines 135, 138). -/
def INFO : Nat := 20

/-- A record of level `level` is emitted iff it exceeds the current
disable threshold. -/
def emitAllowed (st : LogState) (level : Nat) : Bool :=
  st.disable < level

/-- Modelled from the spec: the scoped suppression
`all_logging_disabled()` is imported from `utils`, which is not under
`src/`; per the spec it saves the prior process-wide verbosity, raises
the disable threshold to the highest level for the body, and restores
the prior verbosity on every exit path, including when the body raises.
The body runs under the suppressed state and its outcome (normal or
exceptional) is propagated unchanged. -/
def withAllLoggingDisabled {ε α : Type} (st : LogState)
    (body : LogState → Except ε α) : Except ε α × LogState :=
  let previous := st.disable
  let outcome := body { disable := CRITICAL }
  (outcome, { disable := previous })

/-- `Simulator.autoplay` lines 111-133: the aggregation loop executed
under the scoped logging suppression. -/
def autoplayLogged (world : WorldCtor) (randint : Nat → Nat → Option Nat)
    (boards : List String) (args : Args) (fuel : Nat) (st : LogState) :
    Except Stats Stats × LogState :=
  withAllLoggingDisabled st fun _ =>
    autoplayModel world randint boards args fuel

/-- The mutable state of a `Simulator` instance that the claims touch:
the argparse namespace and the discovered roster. -/
structure SimState where
  args : Args
  board_options : List String
  deriving DecidableEq, Repr

/-- `Simulator.__init__` lines 44-59: store the args and discover the
roster. -/
def simInit (fs : String → Option (List String)) (args : Args) : SimState :=
  { args := args, board_options := discover fs args.board_roster_dir }

/-- `Simulator.run` as a method: reads the configuration, writes none
of its fields (lines 90-98 assign only `self.world`). -/
def runSim (world : WorldCtor) (fuel : Nat) (swap_players : Bool)
    (board_fpath : Option String) (st : SimState) :
    Option MatchResult × SimState :=
  (run world st.args swap_players board_fpath fuel, st)

/-- `Simulator.autoplay` as a method, lines 100-133: line 110 sets
`self.args.display = False` before the loop (a lasting mutation of the
configuration), then the loop runs with the mutated configuration. -/
def autoplaySim (world : WorldCtor) (randint : Nat → Nat → Option Nat)
    (fuel : Nat) (st : SimState) : Except Stats Stats × SimState :=
  let args := { st.args with display := false }
  (autoplayModel world randint st.board_options args fuel,
   { st with args := args })

/-- The canonicalized outcome of iteration `i` of the autoplay loop,
independent of the running aggregates: board drawn by the random
source, match run with the parity-determined swap, result
canonicalized with the same swap flag. -/
def iterOutcome (world : WorldCtor) (randint : Nat → Nat → Option Nat)
    (boards : List String) (args : Args) (fuel : Nat) (i : Nat) :
    Option MatchResult :=
  match selectBoard randint boards i with
  | none => none
  | some board_fpath =>
    (run world args (i % 2 == 0) (some board_fpath) fuel).map
      fun r => canonicalize r (i % 2 == 0)

/-- Concrete fixtures used to instantiate hypotheses at explicit
inputs: an engine that is terminal at its second step with scores
`7 : 3` and fixed timing sequences. -/
def cworld : WorldCtor := fun _ _ _ =>
  { step := fun k => (k == 1, 7, 3), p0_time := [1/10, 2/10], p1_time := [5/100] }

/-- A random source always drawing index `0` (satisfies `RandintSpec`). -/
def crandint : Nat → Nat → Option Nat := fun _ n => if n = 0 then none else some 0

/-- A concrete configuration with two autoplay runs. -/
def cargs : Args :=
  { player_1 := "a", player_2 := "b", board_path := none,
    board_roster_dir := some "boards", display := true, display_delay := 2/5,
    display_save := false, display_save_path := "plots/", autoplay := true,
    autoplay_runs := 2 }

/-- The aggregates `cworld`/`crandint`/`cargs` produce over a
one-board roster: iteration 0 is swapped (logical agent 2 wins `7:3`
from seat 0), iteration 1 is unswapped (logical agent 1 wins). -/
def cstatsRun : Stats :=
  { p1_win_count := 1, p2_win_count := 1,
    p1_times := [5/100, 1/10, 2/10], p2_times := [1/10, 2/10, 5/100] }

lemma autoplayStep_ok_shape (world : WorldCtor) (randint : Nat → Nat → Option Nat)
    (boards : List String) (args : Args) (fuel i : Nat) (s s1 : Stats)
    (h : autoplayStep world randint boards args fuel i s = .ok s1) :
    ∃ r, s1 = updateStats s r := by
  unfold autoplayStep at h
  rcases hsel : selectBoard randint boards i with _ | b
  · rw [hsel] at h; exact absurd h (by simp)
  · rw [hsel] at h
    rcases hrun : run world args (i % 2 == 0) (some b) fuel with _ | r
    · simp [hrun] at h
    · simp only [hrun] at h
      exact ⟨canonicalize r (i % 2 == 0), by injection h with h; exact h.symm⟩

lemma updateStats_sum (s : Stats) (r : MatchResult) :
    (updateStats s r).p1_win_count + (updateStats s r).p2_win_count =
      s.p1_win_count + s.p2_win_count + 1 := by
  simp only [updateStats, updateTimes, updateWins]
  split_ifs <;> simp <;> ring

lemma autoplayLoop_sum (world : WorldCtor) (randint : Nat → Nat → Option Nat)
    (boards : List String) (args : Args) (fuel : Nat) :
    ∀ (l : List Nat) (s s' : Stats),
      autoplayLoop world randint boards args fuel l s = .ok s' →
      s'.p1_win_count + s'.p2_win_count =
        s.p1_win_count + s.p2_win_count + l.length := by
  intro l
  induction l with
  | nil =>
    intro s s' h
    simp only [autoplayLoop] at h
    injection h with h
    subst h
    simp
  | cons i rest ih =>
    intro s s' h
    simp only [autoplayLoop] at h
    rcases hstep : autoplayStep world randint boards args fuel i s with e | s1
    · rw [hstep] at h; exact absurd h (by simp)
    · rw [hstep] at h
      obtain ⟨r, hr⟩ := autoplayStep_ok_shape world randint boards args fuel i s s1 hstep
      have hsum := ih s1 s' h
      rw [hr, updateStats_sum] at hsum
      rw [hsum]
      simp only [List.length_cons]
      push_cast
      ring

/-- C1: for every run count `N ≥ 1`, if the autoplay loop completes
without failure then the two accumulated win credits sum to exactly
`N` (each iteration adds `1` to one credit or `0.5` to each). -/
theorem autoplay_credits_sum (world : WorldCtor) (randint : Nat → Nat → Option Nat)
    (boards : List String) (args : Args) (fuel : Nat) (s : Stats)
    (_hN : 1 ≤ args.autoplay_runs)
    (h : autoplayModel world randint boards args fuel = .ok s) :
    s.p1_win_count + s.p2_win_count = (args.autoplay_runs : ℚ) := by
  have := autoplayLoop_sum world randint boards args fuel
    (List.range args.autoplay_runs) initStats s h
  simpa [initStats] using this

/-- C1 witness: `cworld`/`crandint`/`cargs` run `N = 2` matches to
completion and the credits sum to `2`. -/
theorem autoplay_credits_sum_witness :
    cstatsRun.p1_win_count + cstatsRun.p2_win_count = (cargs.autoplay_runs : ℚ) :=
  autoplay_credits_sum cworld crandint ["x.csv"] cargs 5 cstatsRun
    (by norm_num [cargs])
    (by simp [autoplayModel, autoplayLoop, autoplayStep, selectBoard, run, reset,
          stepLoop, canonicalize, updateStats, updateWins, updateTimes,
          seatAssignment, resolveBoard, initStats, cworld, crandint, cargs,
          cstatsRun, List.range_succ]
        norm_num)


/-- C2: in a swapped iteration the configured `player_2` occupies seat
0 and `player_1` occupies seat 1, the engine is built accordingly, and
`canonicalize` exchanges the returned seat scores and timing sequences
(identity when not swapped) — so the first aggregate always refers to
the logical agent named `player_1`. -/
theorem swap_restores_logical_identity (world : WorldCtor) (args : Args)
    (board_fpath : Option String) (r : MatchResult) :
    (seatAssignment args true).1 = args.player_2 ∧
    (seatAssignment args true).2 = args.player_1 ∧
    reset world args true board_fpath =
      world args.player_2 args.player_1 (resolveBoard args board_fpath) ∧
    (canonicalize r true).p0_score = r.p1_score ∧
    (canonicalize r true).p1_score = r.p0_score ∧
    (canonicalize r true).p0_time = r.p1_time ∧
    (canonicalize r true).p1_time = r.p0_time ∧
    canonicalize r false = r := by
  refine ⟨rfl, rfl, ?_, rfl, rfl, rfl, rfl, rfl⟩
  simp [reset, seatAssignment]

lemma autoplayStep_eq_iterOutcome (world : WorldCtor)
    (randint : Nat → Nat → Option Nat) (boards : List String) (args : Args)
    (fuel i : Nat) (s : Stats) :
    autoplayStep world randint boards args fuel i s =
      match iterOutcome world randint boards args fuel i with
      | none => .error s
      | some r => .ok (updateStats s r) := by
  unfold autoplayStep iterOutcome
  rcases selectBoard randint boards i with _ | b
  · simp
  · rcases hrun : run world args (i % 2 == 0) (some b) fuel with _ | r0 <;>
      simp [hrun]

lemma autoplayLoop_all_some (world : WorldCtor) (randint : Nat → Nat → Option Nat)
    (boards : List String) (args : Args) (fuel : Nat) :
    ∀ (l : List Nat) (s : Stats),
      (∀ i ∈ l, (iterOutcome world randint boards args fuel i).isSome = true) →
      autoplayLoop world randint boards args fuel l s =
        .ok (l.foldl (fun acc i =>
          updateStats acc
            ((iterOutcome world randint boards args fuel i).getD default)) s) := by
  intro l
  induction l with
  | nil => intro s _; simp [autoplayLoop]
  | cons i rest ih =>
    intro s hall
    have hi := hall i (by simp)
    rcases hout : iterOutcome world randint boards args fuel i with _ | r
    · rw [hout] at hi; simp at hi
    · have hstep := autoplayStep_eq_iterOutcome world randint boards args fuel i s
      rw [hout] at hstep
      simp only [autoplayLoop, hstep]
      rw [ih (updateStats s r) (fun j hj => hall j (by simp [hj]))]
      simp [hout]

/-- C3: the autoplay loop runs exactly `autoplay_runs` iterations
indexed `0, …, runs-1` (a fold over `List.range autoplay_runs`); in
iteration `i` the engine seats are swapped exactly when `i % 2 = 0`;
and the board is drawn from the roster by the injected random source,
which (per numpy's contract) yields some index below the roster length
whenever the roster is non-empty. -/
theorem autoplay_loop_structure (world : WorldCtor) (randint : Nat → Nat → Option Nat)
    (boards : List String) (args : Args) (fuel : Nat) :
    (∀ (i : Nat) (bf : Option String),
      reset world args (i % 2 == 0) bf =
        world (if i % 2 = 0 then args.player_2 else args.player_1)
              (if i % 2 = 0 then args.player_1 else args.player_2)
              (resolveBoard args bf)) ∧
    (RandintSpec randint → boards ≠ [] → ∀ i : Nat, ∃ k : Nat,
      k < boards.length ∧ selectBoard randint boards i = boards.get? k) ∧
    ((∀ i, i < args.autoplay_runs →
        (iterOutcome world randint boards args fuel i).isSome = true) →
      autoplayModel world randint boards args fuel =
        .ok ((List.range args.autoplay_runs).foldl
          (fun acc i =>
            updateStats acc
              ((iterOutcome world randint boards args fuel i).getD default))
          initStats)) := by
  refine ⟨?_, ?_, ?_⟩
  · intro i bf
    rcases Nat.even_or_odd i with he | ho
    · have h2 : i % 2 = 0 := Nat.even_iff.mp he
      simp [reset, seatAssignment, h2]
    · have h2 : i % 2 = 1 := Nat.odd_iff.mp ho
      simp [reset, seatAssignment, h2]
  · intro hspec hne i
    obtain ⟨k, hk, hr⟩ := (hspec i).2 boards.length
      (List.length_pos.mpr hne)
    exact ⟨k, hk, by simp [selectBoard, hr]⟩
  · intro hall
    exact autoplayLoop_all_some world randint boards args fuel
      (List.range args.autoplay_runs) initStats
      (fun i hi => hall i (List.mem_range.mp hi))

/-- C3 witness: the three conjuncts instantiated on the concrete
fixtures (`i = 0`, the one-board roster, two runs). -/
theorem autoplay_loop_structure_witness :
    (reset cworld cargs ((0 : Nat) % 2 == 0) none =
      cworld (if (0 : Nat) % 2 = 0 then cargs.player_2 else cargs.player_1)
             (if (0 : Nat) % 2 = 0 then cargs.player_1 else cargs.player_2)
             (resolveBoard cargs none)) ∧
    (∃ k : Nat, k < (["x.csv"] : List String).length ∧
      selectBoard crandint ["x.csv"] 0 = (["x.csv"] : List String).get? k) ∧
    autoplayModel cworld crandint ["x.csv"] cargs 5 =
      .ok ((List.range cargs.autoplay_runs).foldl
        (fun acc i =>
          updateStats acc
            ((iterOutcome cworld crandint ["x.csv"] cargs 5 i).getD default))
        initStats) :=
  ⟨(autoplay_loop_structure cworld crandint ["x.csv"] cargs 5).1 0 none,
   (autoplay_loop_structure cworld crandint ["x.csv"] cargs 5).2.1
     (fun i => ⟨by simp [crandint],
       fun n hn => ⟨0, hn, by simp [crandint, Nat.pos_iff_ne_zero.mp hn]⟩⟩)
     (by simp) 0,
   (autoplay_loop_structure cworld crandint ["x.csv"] cargs 5).2.2
     (by intro i hi
         norm_num [cargs] at hi
         interval_cases i <;>
           simp [iterOutcome, selectBoard, run, reset, stepLoop, cworld,
             crandint, cargs, seatAssignment, resolveBoard])⟩

/-- C4: aggregation adds `0.5` to each credit on score equality, `1`
to the first credit when the canonicalized seat-1 score is higher, and
`1` to the second credit when it is lower, leaving the other credit
unchanged. -/
theorem update_credit_cases (s : Stats) (r : MatchResult) :
    (r.p0_score = r.p1_score →
      (updateStats s r).p1_win_count = s.p1_win_count + 1/2 ∧
      (updateStats s r).p2_win_count = s.p2_win_count + 1/2) ∧
    (r.p0_score > r.p1_score →
      (updateStats s r).p1_win_count = s.p1_win_count + 1 ∧
      (updateStats s r).p2_win_count = s.p2_win_count) ∧
    (r.p0_score < r.p1_score →
      (updateStats s r).p1_win_count = s.p1_win_count ∧
      (updateStats s r).p2_win_count = s.p2_win_count + 1) := by
  refine ⟨fun heq => ?_, fun hgt => ?_, fun hlt => ?_⟩
  · simp [updateStats, updateTimes, updateWins, heq]
  · simp [updateStats, updateTimes, updateWins, hgt, not_lt.mpr (le_of_lt hgt),
      ne_of_gt hgt]
  · simp [updateStats, updateTimes, updateWins, hlt, not_lt.mpr (le_of_lt hlt),
      ne_of_lt hlt, asymm hlt]

/-- A tied match result used to instantiate the aggregation cases. -/
def rTie : MatchResult :=
  { p0_score := 4, p1_score := 4, p0_time := [1/10], p1_time := [2/10] }

/-- A seat-1-winning match result used to instantiate the aggregation
cases. -/
def rWin : MatchResult :=
  { p0_score := 7, p1_score := 3, p0_time := [1/10], p1_time := [2/10] }

/-- C4 witness: the tie case and the seat-1-win case instantiated at
zeroed aggregates. -/
theorem update_credit_cases_witness :
    ((updateStats initStats rTie).p1_win_count = initStats.p1_win_count + 1/2 ∧
     (updateStats initStats rTie).p2_win_count = initStats.p2_win_count + 1/2) ∧
    ((updateStats initStats rWin).p1_win_count = initStats.p1_win_count + 1 ∧
     (updateStats initStats rWin).p2_win_count = initStats.p2_win_count) :=
  ⟨(update_credit_cases initStats rTie).1 (by norm_num [rTie]),
   (update_credit_cases initStats rWin).2.1 (by norm_num [rWin])⟩

/-- Aggregates whose first timing sequence holds a single duration of
one microsecond, below the 5-decimal rounding resolution. -/
def cstatsTiny : Stats :=
  { p1_win_count := 1, p2_win_count := 1,
    p1_times := [1/1000000], p2_times := [1/1000000] }

/-- C5 counterexample: on timing aggregate `[10⁻⁶]` the summary line
reports maximum turn time `0` (the code reports
`np.round(np.max(times), 5)`), while the maximum of the sequence is
`10⁻⁶ ≠ 0`, so the reported maximum does not equal the maximum. -/
theorem summary_max_rounding_counterexample :
    (∃ l1 l2 : SummaryLine, summaryModel cargs cstatsTiny = some (l1, l2) ∧
      l1.max_turn_time = 0) ∧
    listMax cstatsTiny.p1_times = some (1/1000000) ∧
    (0 : ℚ) ≠ 1/1000000 := by
  refine ⟨⟨{ agent := "a", win_percentage := 1/2, max_turn_time := 0 },
    { agent := "b", win_percentage := 1/2, max_turn_time := 0 }, ?_, rfl⟩, ?_, ?_⟩
  · norm_num [summaryModel, cargs, cstatsTiny, listMax, round5, roundHalfEven]
  · norm_num [cstatsTiny, listMax]
  · norm_num

/-- C5 as amended: the summary is exactly two lines, one per logical
agent; each reports win percentage `credit / runs` (exact), and the
reported maximum turn time is the maximum of that agent's flattened
timing sequence rounded to 5 decimal places (`np.round`,
half-to-even). -/
theorem summary_reports_credit_and_rounded_max (args : Args) (s : Stats)
    (m1 m2 : ℚ) (h0 : args.autoplay_runs ≠ 0)
    (h1 : listMax s.p1_times = some m1) (h2 : listMax s.p2_times = some m2) :
    summaryModel args s =
      some
        ({ agent := args.player_1,
           win_percentage := s.p1_win_count / (args.autoplay_runs : ℚ),
           max_turn_time := round5 m1 },
         { agent := args.player_2,
           win_percentage := s.p2_win_count / (args.autoplay_runs : ℚ),
           max_turn_time := round5 m2 }) := by
  unfold summaryModel
  rw [if_neg h0, h1, h2]

/-- Aggregates carrying the spec's example timing sequence
`[0.1, 0.2, 0.05]` for both agents. -/
def cstatsEx : Stats :=
  { p1_win_count := 3/2, p2_win_count := 1/2,
    p1_times := [1/10, 2/10, 5/100], p2_times := [1/10, 2/10, 5/100] }

/-- C5 witness (amended claim at the spec's example): for timings
`[0.1, 0.2, 0.05]` the reported maximum is `round5 0.2`, and
`round5 0.2 = 0.2`. -/
theorem summary_reports_credit_and_rounded_max_witness :
    (summaryModel cargs cstatsEx =
      some
        ({ agent := cargs.player_1,
           win_percentage := cstatsEx.p1_win_count / (cargs.autoplay_runs : ℚ),
           max_turn_time := round5 (2/10) },
         { agent := cargs.player_2,
           win_percentage := cstatsEx.p2_win_count / (cargs.autoplay_runs : ℚ),
           max_turn_time := round5 (2/10) })) ∧
    round5 (2/10) = 2/10 :=
  ⟨summary_reports_credit_and_rounded_max cargs cstatsEx (2/10) (2/10)
      (by norm_num [cargs])
      (by norm_num [cstatsEx, listMax])
      (by norm_num [cstatsEx, listMax]),
   by norm_num [round5, roundHalfEven]⟩

/-- C6: the scoped suppression raises the disable threshold to
`CRITICAL` for the loop body — so the informational per-match line
(level `INFO`) is not emitted inside the loop — and the prior
threshold is restored on every exit path (the restored state equals
the initial state whether the loop returns `.ok` or `.error`), so
with the default prior verbosity the two post-loop `INFO` summary
lines are emitted. -/
theorem autoplay_logging_suppressed_and_restored (world : WorldCtor)
    (randint : Nat → Nat → Option Nat) (boards : List String) (args : Args)
    (fuel : Nat) (st : LogState) :
    (autoplayLogged world randint boards args fuel st).2 = st ∧
    (autoplayLogged world randint boards args fuel st).1 =
      autoplayModel world randint boards args fuel ∧
    emitAllowed { disable := CRITICAL } INFO = false ∧
    (st.disable = 0 →
      emitAllowed (autoplayLogged world randint boards args fuel st).2 INFO = true) := by
  refine ⟨?_, rfl, by decide, ?_⟩
  · cases st
    rfl
  · intro h0
    cases st
    simp only at h0
    simp [autoplayLogged, withAllLoggingDisabled, emitAllowed, INFO, h0]

/-- C6 witness: with an empty roster the loop fails with an exception,
and the logging state is still restored and the summary level still
emittable afterward. -/
theorem autoplay_logging_suppressed_and_restored_witness :
    (autoplayLogged cworld crandint [] cargs 5 { disable := 0 }).2 =
      { disable := 0 } ∧
    emitAllowed (autoplayLogged cworld crandint [] cargs 5 { disable := 0 }).2
      INFO = true :=
  ⟨(autoplay_logging_suppressed_and_restored cworld crandint [] cargs 5
      { disable := 0 }).1,
   (autoplay_logging_suppressed_and_restored cworld crandint [] cargs 5
      { disable := 0 }).2.2.2 rfl⟩

/-- C7: discovery returns exactly the directory entries whose name
ends in `.csv` or `.board` (joined to the directory), and returns the
empty sequence — raising nothing — when no roster directory is
configured, the configured value is falsy, or the path is not a
directory. -/
theorem discover_filters_by_suffix (fs : String → Option (List String))
    (d : String) (entries : List String) :
    discover fs none = [] ∧
    discover fs (some "") = [] ∧
    (fs d = none → discover fs (some d) = []) ∧
    (fs d = some entries → d ≠ "" →
      ∀ p : String, p ∈ discover fs (some d) ↔
        ∃ fname, fname ∈ entries ∧
          (endswith fname ".csv" = true ∨ endswith fname ".board" = true) ∧
          p = joinPath d fname) := by
  refine ⟨rfl, rfl, fun h => ?_, fun h hne p => ?_⟩
  · simp [discover, h]
  · simp only [discover, if_neg hne, h, List.mem_map, List.mem_filter,
      Bool.or_eq_true]
    constructor
    · rintro ⟨fname, ⟨hmem, hsfx⟩, rfl⟩
      exact ⟨fname, hmem, hsfx, rfl⟩
    · rintro ⟨fname, hmem, hsfx, rfl⟩
      exact ⟨fname, ⟨hmem, hsfx⟩, rfl⟩

/-- The spec's example directory listing. -/
def cfsEx : String → Option (List String) :=
  fun d => if d = "boards" then some ["a.csv", "b.board", "c.txt"] else none

/-- C7 witness: over entries `[a.csv, b.board, c.txt]` the discovered
roster is exactly `[boards/a.csv, boards/b.board]` (so `c.txt` is
excluded), and the membership characterization holds at
`boards/a.csv`. -/
theorem discover_filters_by_suffix_witness :
    ("boards/a.csv" ∈ discover cfsEx (some "boards") ↔
      ∃ fname, fname ∈ (["a.csv", "b.board", "c.txt"] : List String) ∧
        (endswith fname ".csv" = true ∨ endswith fname ".board" = true) ∧
        "boards/a.csv" = joinPath "boards" fname) ∧
    discover cfsEx (some "boards") = ["boards/a.csv", "boards/b.board"] :=
  ⟨(discover_filters_by_suffix cfsEx "boards" ["a.csv", "b.board", "c.txt"]).2.2.2
      rfl (by decide) "boards/a.csv",
   by decide⟩

/-- A filesystem on which every path fails the directory test. -/
def cfsNone : String → Option (List String) :=
  fun _ => none

/-- C8: a missing/invalid roster directory yields an empty roster with
no error at discovery time; with at least one run requested, autoplay
then fails inside the random board selection of iteration 0 — the
random draw over bound 0 raises — before any match is run (the outcome
is the same for every engine) and with both win credits still at 0. -/
theorem empty_roster_fails_in_first_selection
    (randint : Nat → Nat → Option Nat) (args : Args) (fuel : Nat)
    (fs : String → Option (List String)) (d : String)
    (hspec : RandintSpec randint) (hdir : fs d = none)
    (hruns : 1 ≤ args.autoplay_runs) :
    discover fs (some d) = [] ∧
    selectBoard randint [] 0 = none ∧
    (∀ world2 : WorldCtor,
      autoplayModel world2 randint [] args fuel = .error initStats) ∧
    initStats.p1_win_count = 0 ∧
    initStats.p2_win_count = 0 := by
  have hsel0 : selectBoard randint [] 0 = none := by
    have h0 := (hspec 0).1
    simp [selectBoard, h0]
  refine ⟨?_, hsel0, ?_, rfl, rfl⟩
  · rcases eq_or_ne d "" with rfl | hne
    · simp [discover]
    · simp [discover, hne, hdir]
  · intro world2
    rcases hr : args.autoplay_runs with _ | n
    · omega
    · have hio : iterOutcome world2 randint [] args fuel 0 = none := by
        unfold iterOutcome
        rw [hsel0]
      unfold autoplayModel
      rw [hr, List.range_succ_eq_map]
      simp only [autoplayLoop, autoplayStep_eq_iterOutcome, hio]

/-- C8 witness: the concrete random source and a filesystem with no
directories, two runs requested. -/
theorem empty_roster_fails_in_first_selection_witness :
    discover cfsNone (some "nope") = [] ∧
    selectBoard crandint [] 0 = none ∧
    autoplayModel cworld crandint [] cargs 5 = .error initStats ∧
    initStats.p1_win_count = 0 ∧
    initStats.p2_win_count = 0 := by
  have h := empty_roster_fails_in_first_selection crandint cargs 5 cfsNone "nope"
    (fun i => ⟨by simp [crandint],
      fun n hn => ⟨0, hn, by simp [crandint, Nat.pos_iff_ne_zero.mp hn]⟩⟩)
    rfl
    (by norm_num [cargs])
  exact ⟨h.1, h.2.1, h.2.2.1 cworld, h.2.2.2⟩

lemma stepLoop_first_terminal (step : Nat → Bool × ℚ × ℚ) :
    ∀ (fuel start N : Nat), start ≤ N → N < start + fuel →
      (step N).1 = true →
      (∀ k, start ≤ k → k < N → (step k).1 = false) →
      stepLoop step fuel start = some ((step N).2.1, (step N).2.2) := by
  intro fuel
  induction fuel with
  | zero => intro start N h1 h2 _ _; omega
  | succ fuel ih =>
    intro start N h1 h2 hterm hfirst
    by_cases hs : (step start).1 = true
    · have hsn : start = N := by
        rcases eq_or_lt_of_le h1 with h | h
        · exact h
        · exact absurd (hfirst start le_rfl h) (by simp [hs])
      subst hsn
      simp [stepLoop, hs]
    · have hlt : start < N := by
        rcases eq_or_lt_of_le h1 with h | h
        · subst h; exact absurd hterm hs
        · exact h
      simp only [stepLoop, Bool.if_false_right]
      rw [if_neg (by simpa using hs)]
      exact ih (start + 1) N (by omega) (by omega) hterm
        (fun k hk1 hk2 => hfirst k (by omega) hk2)

/-- C9: for an engine whose `step()` first reports a terminal state at
call `N` (within the step budget), `run` returns exactly the seat
scores of that terminal step together with the engine's two per-seat
timing sequences; and with no board supplied the engine is built from
the (possibly swapped) seat assignment and the configuration's default
`board_path`. -/
theorem run_returns_first_terminal (world : WorldCtor) (args : Args)
    (swap_players : Bool) (fuel N : Nat)
    (hterm : ((reset world args swap_players none).step N).1 = true)
    (hfirst : ∀ k, k < N → ((reset world args swap_players none).step k).1 = false)
    (hfuel : N < fuel) :
    run world args swap_players none fuel =
      some
        { p0_score := ((reset world args swap_players none).step N).2.1,
          p1_score := ((reset world args swap_players none).step N).2.2,
          p0_time := (reset world args swap_players none).p0_time,
          p1_time := (reset world args swap_players none).p1_time } ∧
    reset world args swap_players none =
      world (seatAssignment args swap_players).1
        (seatAssignment args swap_players).2 args.board_path := by
  constructor
  · have hsl := stepLoop_first_terminal (reset world args swap_players none).step
      fuel 0 N (Nat.zero_le N) (by omega) hterm (fun k _ hk => hfirst k hk)
    simp only [run, hsl]
    rfl
  · rfl

/-- C9 witness: the concrete engine is first terminal at its second
step (`N = 1`); `run` returns its scores and timing sequences. -/
theorem run_returns_first_terminal_witness :
    run cworld cargs true none 5 =
      some
        { p0_score := ((reset cworld cargs true none).step 1).2.1,
          p1_score := ((reset cworld cargs true none).step 1).2.2,
          p0_time := (reset cworld cargs true none).p0_time,
          p1_time := (reset cworld cargs true none).p1_time } ∧
    reset cworld cargs true none =
      cworld (seatAssignment cargs true).1 (seatAssignment cargs true).2
        cargs.board_path :=
  run_returns_first_terminal cworld cargs true 5 1 (by decide) (by decide)
    (by norm_num)

/-- C10 counterexample: `autoplay` permanently flips the
configuration's `display` field to `False` (simulator.py line 110):
starting from a configuration with `display = True`, the configuration
after `autoplay` differs from the one before. -/
theorem configuration_immutability_counterexample :
    (autoplaySim cworld crandint 5 (simInit cfsEx cargs)).2.args.display = false ∧
    cargs.display = true ∧
    (autoplaySim cworld crandint 5 (simInit cfsEx cargs)).2.args ≠ cargs :=
  ⟨rfl, rfl, fun h => absurd (congrArg Args.display h) (by decide)⟩

/-- C10 as amended: roster discovery, `reset`, and `run` leave every
configuration field unchanged; `autoplay` leaves every field unchanged
except `display`, which it unconditionally sets to `false` before the
loop (the forced display-off of §4.3), and it leaves the roster
unchanged. -/
theorem configuration_mutation_only_display (world : WorldCtor)
    (randint : Nat → Nat → Option Nat) (fuel : Nat)
    (fs : String → Option (List String)) (args : Args) (st : SimState)
    (swap_players : Bool) (board_fpath : Option String) :
    (simInit fs args).args = args ∧
    (runSim world fuel swap_players board_fpath st).2 = st ∧
    (autoplaySim world randint fuel st).2.args =
      { st.args with display := false } ∧
    (autoplaySim world randint fuel st).2.args.player_1 = st.args.player_1 ∧
    (autoplaySim world randint fuel st).2.args.player_2 = st.args.player_2 ∧
    (autoplaySim world randint fuel st).2.args.board_path = st.args.board_path ∧
    (autoplaySim world randint fuel st).2.args.board_roster_dir =
      st.args.board_roster_dir ∧
    (autoplaySim world randint fuel st).2.args.display_delay =
      st.args.display_delay ∧
    (autoplaySim world randint fuel st).2.args.display_save =
      st.args.display_save ∧
    (autoplaySim world randint fuel st).2.args.display_save_path =
      st.args.display_save_path ∧
    (autoplaySim world randint fuel st).2.args.autoplay = st.args.autoplay ∧
    (autoplaySim world randint fuel st).2.args.autoplay_runs =
      st.args.autoplay_runs ∧
    (autoplaySim world randint fuel st).2.board_options = st.board_options :=
  ⟨rfl, rfl, rfl, rfl, rfl, rfl, rfl, rfl, rfl, rfl, rfl, rfl, rfl⟩
